import Mathlib

set_option maxRecDepth 4000

/-!
Shallow embedding of the teacher-shopping-assistant product-matching
pipeline (src/app.py, src/app_backup.py, src/app_candidates.py).

External dependencies (the HTTP layer `requests`, the HTML parser
BeautifulSoup, the language-model API and Python's `json.loads`) are
modelled as explicit oracle parameters: an HTTP call becomes a value of
type `Fetch β` where `β` is the already-parsed body handed back by the
external library (with `Option` marking a parse that raises), and the
ranking model plus `json.loads` become function parameters.  All code of
the repository itself is translated statement by statement.
-/

/-! ### Python-flavoured string helpers -/

/-- Character constants written via code points so that the source file
stays free of bracket-like literals. -/
def spaceChar : Char := Char.ofNat 32

def plusChar : Char := Char.ofNat 43

def hyphenChar : Char := Char.ofNat 45

def commaChar : Char := Char.ofNat 44

def quoteChar : Char := Char.ofNat 34

def superTwoChar : Char := Char.ofNat 178

def digitTwoChar : Char := Char.ofNat 50

def openBraceChar : Char := Char.ofNat 123

def closeBraceChar : Char := Char.ofNat 125

/-- Tokenizer worker: walk the characters, accumulating the current word
reversed; whitespace closes a word. -/
def splitWordsAux : List Char → List Char → List String
  | [], acc => if acc.isEmpty then [] else [String.mk acc.reverse]
  | c :: cs, acc =>
    if c.isWhitespace then
      if acc.isEmpty then splitWordsAux cs []
      else String.mk acc.reverse :: splitWordsAux cs []
    else splitWordsAux cs (c :: acc)

/-- Python `s.split()` with no arguments: split on whitespace runs and
drop empty pieces. -/
def pySplitWords (s : String) : List String := splitWordsAux s.data []

/-- Python `s.lower()` (ASCII case mapping, the alphabet the code
manipulates). -/
def pyToLower (s : String) : String := String.mk (s.data.map Char.toLower)


/-- Python `d.get(key, default)` for string-valued fields: `none` models
an absent key. -/
def pyGetS (o : Option String) (d : String) : String := o.getD d

/-- Python truthiness of `os.getenv(...)`: a missing variable (None) and
the empty string are both falsy. -/
def pyTruthy (o : Option String) : Bool :=
  match o with
  | none => false
  | some s => s ≠ ""

/-- Does `l` start with `pat`?  (Helper for substring containment.) -/
def listStartsWith : List Char → List Char → Bool
  | _, [] => true
  | [], _ :: _ => false
  | a :: as, b :: bs => a = b && listStartsWith as bs

/-- Python `pat in s` on character lists: substring containment. -/
def containsSub : List Char → List Char → Bool
  | [], pat => pat.isEmpty
  | a :: as, pat => listStartsWith (a :: as) pat || containsSub as pat

/-- Python `pat in s` on strings. -/
def strContains (s pat : String) : Bool := containsSub s.data pat.data

/-- Python `s.startswith(pat)`. -/
def strStartsWith (s pat : String) : Bool := listStartsWith s.data pat.data

/-- Index of the first occurrence of `c` in `l`, if any. -/
def firstIdx (c : Char) : List Char → Option Nat
  | [] => none
  | a :: as => if a = c then some 0 else (firstIdx c as).map (· + 1)

/-- Index of the last occurrence of `c` in `l`, if any. -/
def lastIdx (c : Char) : List Char → Option Nat
  | [] => none
  | a :: as =>
    match lastIdx c as with
    | some j => some (j + 1)
    | none => if a = c then some 0 else none

/-! ### The first-balanced-brace regex step

`re.search(r'\x7b.*\x7d', text, re.DOTALL)` used by both
`identify_lab_item` and `analyze_products_with_ai`: with a greedy `.*`
and DOTALL, the match (when one exists) runs from the first opening
brace that is followed by a closing brace up to the last closing brace
of the whole text; it exists precisely when some opening brace is
followed by a later closing brace, and in that case the first opening
brace of the text qualifies. -/

def reSearchJson (l : List Char) : Option (List Char) :=
  match firstIdx openBraceChar l, lastIdx closeBraceChar l with
  | some i, some j => if i < j then some ((l.drop i).take (j - i + 1)) else none
  | some _, none => none
  | none, _ => none

/-- The regex step on strings, as used on the model's response text. -/
def reSearchStr (s : String) : Option String :=
  (reSearchJson s.data).map (fun l => String.mk l)

/-! ### The Candidate Matcher: `analyze_products_with_ai`

src/app.py lines 408-473 (textually identical in src/app_backup.py
lines 279-344).  The language-model call itself is external; the
function below receives the model's free-form response text together
with a `jsonLoads` oracle standing for Python's `json.loads` composed
with dictionary access: it returns `none` when `json.loads` raises (the
surrounding `except` then yields `None`), otherwise the values of the
`match_found` and `best_match_number` keys.  `match_found` is modelled
by its truthiness; `best_match_number` by an optional integer (`none`
for an absent or null key; a non-integer value would make the later
subtraction or indexing raise, which the catch-all turns into `None`,
the same outcome the bounds check gives). -/

structure AIResult where
  match_found : Bool
  best_match_number : Option Int
deriving DecidableEq, Repr

def analyze_products_with_ai {α : Type} (jsonLoads : String → Option AIResult)
    (product_list : List α) (response_content : String) : Option α :=
  match reSearchStr response_content with
  | none => none
  | some sub =>
    match jsonLoads sub with
    | none => none
    | some result =>
      if result.match_found then
        match result.best_match_number with
        | none => none
        | some k =>
          if k = 0 then none
          else if h : 0 ≤ k - 1 ∧ k - 1 < (product_list.length : Int) then
            some (product_list.get ⟨(k - 1).toNat, by omega⟩)
          else none
      else none

/-! ### Term Extractor

The stop-word lists and the keyword extraction inlined in
`find_product_url` (src/app.py lines 293-295) and in
`find_product_candidates` (src/app_candidates.py lines 150-156, the same
list with the unit abbreviations appended; src/app_backup.py line 257
uses the latter list as well). -/

def stop_words_app : List String :=
  ["the", "a", "an", "and", "or", "but", "in", "on", "at", "to", "for",
   "of", "with", "by"]

def stop_words_cand : List String :=
  ["the", "a", "an", "and", "or", "but", "in", "on", "at", "to", "for",
   "of", "with", "by", "ml", "fl", "oz"]

/-- src/app.py 293-295: lowercase, split on whitespace, drop stop words
and tokens of length at most two. -/
def key_terms_app (product_name : String) : List String :=
  (pySplitWords (pyToLower product_name)).filter
    (fun t => decide (t ∉ stop_words_app) && decide (2 < t.length))

/-- src/app_candidates.py 150-156: same extraction with the longer
stop-word list. -/
def key_terms_cand (product_name : String) : List String :=
  (pySplitWords (pyToLower product_name)).filter
    (fun t => decide (t ∉ stop_words_cand) && decide (2 < t.length))

/-! ### Catalog Query Client, candidate-selection variant

`get_zoho_commerce_products` of src/app_candidates.py lines 26-122: an
unauthenticated storefront API tried over a list of endpoint URLs until
one returns HTTP 200 with parseable JSON.  The upstream JSON shapes are
modelled field by field: every `d.get(key, default)` becomes an
`Option`-valued field, prices are carried as their already-rendered
decimal strings (only Python's string interpolation of them occurs in
this code). -/

/-- One upstream product object of the storefront JSON. -/
structure UProduct where
  url : Option String
  handle : Option String
  product_id : Option String
  id : Option String
  name : Option String
  selling_price : Option String
  price : Option String
  description : Option String
  short_description : Option String
deriving DecidableEq, Repr

/-- The optional `payload` object of the storefront JSON. -/
structure ZohoPayload where
  products : Option (List UProduct)
deriving DecidableEq, Repr

/-- A parsed storefront JSON document; products may sit under
`products`, `data`, or `payload.products`. -/
structure ZohoData where
  products : Option (List UProduct)
  data_field : Option (List UProduct)
  payload : Option ZohoPayload
deriving DecidableEq, Repr

/-- src/app_candidates.py 76-79: `data.get('products', data.get('data', []))`
overridden by `payload.products` when that path exists. -/
def extract_product_list (d : ZohoData) : List UProduct :=
  let base :=
    match d.products with
    | some ps => ps
    | none => d.data_field.getD []
  match d.payload with
  | some pl =>
    match pl.products with
    | some ps => ps
    | none => base
  | none => base

def storeOrigin : String := "https://www.shopbiolinkdepot.org"

/-- src/app_candidates.py 89-90: `product.get('product_id', product.get('id', ''))`. -/
def pidOf (p : UProduct) : String :=
  match p.product_id with
  | some s => s
  | none => pyGetS p.id ""

/-- src/app_candidates.py 82-94: url, falling back to handle, falling
back to a synthesized product URL; then leading-slash relative URLs are
prefixed with the store origin. -/
def productUrlOf (p : UProduct) : String :=
  let u0 := pyGetS p.url ""
  let u1 := if u0 = "" then pyGetS p.handle "" else u0
  let u2 := if u1 = "" then storeOrigin ++ "/products/" ++ pidOf p else u1
  if strStartsWith u2 "/" then storeOrigin ++ u2 else u2

/-- src/app_candidates.py 101: `f"$\x7b...\x7d"` over
`product.get('selling_price', product.get('price', 0))`. -/
def priceStrOf (p : UProduct) : String :=
  match p.selling_price with
  | some s => s
  | none => pyGetS p.price "0"

/-- src/app_candidates.py 102: description falling back to
`short_description`. -/
def descOf (p : UProduct) : String :=
  match p.description with
  | some s => s
  | none => pyGetS p.short_description ""

/-- The normalized record appended at src/app_candidates.py 98-105. -/
structure ZProduct where
  name : String
  id : String
  price : String
  description : String
  status : String
  url : String
deriving DecidableEq, Repr

def normalizeUProduct (p : UProduct) : ZProduct :=
  { name := pyGetS p.name ""
    id := pidOf p
    price := "$" ++ priceStrOf p
    description := descOf p
    status := "active"
    url := productUrlOf p }

/-- Outcome of one `requests.get`: the call raised, or returned a
response with a status code and a body already handed through the
external parser (`none` body meaning `.json()` raises). -/
inductive Fetch (β : Type) where
  | netError : Fetch β
  | resp : Nat → β → Fetch β
deriving DecidableEq, Repr

/-- src/app_candidates.py 38-49: the endpoint list, one generic products
endpoint, one search endpoint per term longer than two characters, and a
final `q=all` fallback. -/
def zoho_api_urls (search_terms : Option (List String)) : List String :=
  ["https://commerce.zoho.com/storefront/api/v1/products"] ++
  (match search_terms with
   | none => []
   | some ts =>
     (ts.filter (fun t => decide (2 < t.length))).map
       (fun t => "https://commerce.zoho.com/storefront/api/v1/search-products?q=" ++ t)) ++
  ["https://commerce.zoho.com/storefront/api/v1/search-products?q=all"]

/-- src/app_candidates.py 57-117: try each endpoint; a raising request
or a raising `.json()` is caught and the loop continues, a non-200
status just continues, and the first 200 with parseable JSON returns its
(possibly empty) normalized product list.  The second component records
the URLs attempted, in order. -/
def zoho_try_urls (fetch : String → Fetch (Option ZohoData)) :
    List String → List ZProduct × List String
  | [] => ([], [])
  | u :: rest =>
    match fetch u with
    | Fetch.netError =>
      let r := zoho_try_urls fetch rest
      (r.1, u :: r.2)
    | Fetch.resp s body =>
      if s = 200 then
        match body with
        | none =>
          let r := zoho_try_urls fetch rest
          (r.1, u :: r.2)
        | some d => ((extract_product_list d).map normalizeUProduct, [u])
      else
        let r := zoho_try_urls fetch rest
        (r.1, u :: r.2)

/-- src/app_candidates.py 26-122, with the attempted-URL log. -/
def get_zoho_commerce_products (fetch : String → Fetch (Option ZohoData))
    (search_terms : Option (List String)) : List ZProduct × List String :=
  zoho_try_urls fetch (zoho_api_urls search_terms)

/-- src/app_candidates.py 124-136: pass through a non-empty API result,
else the empty list. -/
def get_biolink_products (fetch : String → Fetch (Option ZohoData))
    (search_terms : Option (List String)) : List ZProduct × List String :=
  let r := get_zoho_commerce_products fetch search_terms
  if r.1 ≠ [] then r else ([], r.2)

/-- src/app_candidates.py 138-170: the `Not Found` sentinel
short-circuits before any term extraction or catalog query; otherwise
the first ten candidates of the catalog result are returned. -/
def find_product_candidates (fetch : String → Fetch (Option ZohoData))
    (product_name : String) : List ZProduct × List String :=
  if product_name = "Not Found" then ([], [])
  else
    let search_terms := key_terms_cand product_name
    let r := get_biolink_products fetch (some search_terms)
    if r.1 ≠ [] then (r.1.take 10, r.2) else ([], r.2)

/-! ### Catalog Query Client, auto-select variant (src/app.py)

Three strategy functions: the authenticated commerce API
(`get_zoho_commerce_products`, lines 26-74), the homepage scrape
(`scrape_biolink_products`, lines 76-156) and the site-search scrape
(`get_search_results`, lines 342-406). -/

/-- One product object of the authenticated commerce API response
(src/app.py 56-63); it carries no url field. -/
structure AUProduct where
  name : Option String
  id : Option String
  price : Option String
  description : Option String
  status : Option String
deriving DecidableEq, Repr

/-- The authenticated API JSON document: `data.get('products', [])`. -/
structure AZohoData where
  products : Option (List AUProduct)
deriving DecidableEq, Repr

/-- The record appended at src/app.py 57-63. -/
structure AZProduct where
  name : String
  id : String
  price : String
  description : String
  status : String
deriving DecidableEq, Repr

def normalizeAUProduct (p : AUProduct) : AZProduct :=
  { name := pyGetS p.name ""
    id := pyGetS p.id ""
    price := "$" ++ pyGetS p.price "0"
    description := pyGetS p.description ""
    status := pyGetS p.status "" }

/-- src/app.py 26-74: skipped entirely unless all three credentials are
truthy; a raising request or raising `.json()` is caught into the empty
list, and a non-200 status returns the empty list. -/
def get_zoho_commerce_products_app (client_id client_secret access_token : Option String)
    (fetch : Fetch (Option AZohoData)) : List AZProduct :=
  if !(pyTruthy client_id && pyTruthy client_secret && pyTruthy access_token) then []
  else
    match fetch with
    | Fetch.netError => []
    | Fetch.resp s body =>
      if s = 200 then
        match body with
        | none => []
        | some d => (d.products.getD []).map normalizeAUProduct
      else []

/-- The de-duplication loop of src/app.py 140-147 and 390-396: a `seen`
set of names, keeping the first record bearing each (exactly equal)
name. -/
def dedupBy {α : Type} (nameOf : α → String) : List String → List α → List α
  | _, [] => []
  | seen, a :: as =>
    if nameOf a ∈ seen then dedupBy nameOf seen as
    else a :: dedupBy nameOf (nameOf a :: seen) as

/-- One text element found by the BeautifulSoup selector scan of
src/app.py 112-129 (the external parser is a black box: it yields
stripped element texts and, for each, the text of a nearby price element
when the `parent.find` lookup succeeds). -/
structure ScrapeElem where
  text : String
  priceNear : Option String
deriving DecidableEq, Repr

/-- The record appended at src/app.py 134-138. -/
structure ScrapeProduct where
  name : String
  id : String
  price : String
deriving DecidableEq, Repr

def scrape_keywords : List String :=
  ["flask", "bottle", "tube", "plate", "filter", "red bull", "redbull"]

/-- src/app.py 118-120: length window and keyword filter. -/
def scrapeElemOk (e : ScrapeElem) : Bool :=
  decide (e.text ≠ "") && decide (3 < e.text.length) && decide (e.text.length < 200) &&
  scrape_keywords.any (fun kw => strContains (pyToLower e.text) kw)

/-- src/app.py 132: the id transformation chain
`text.lower().replace(' ', '-').replace(',', '').replace('"', '').replace('²', '2')`. -/
def scrapeIdOf (text : String) : String :=
  String.mk
    (((((pyToLower text).data.map (fun c => if c = spaceChar then hyphenChar else c)).filter
        (fun c => c ≠ commaChar)).filter (fun c => c ≠ quoteChar)).map
      (fun c => if c = superTwoChar then digitTwoChar else c))

def mkScrapeProduct (e : ScrapeElem) : ScrapeProduct :=
  { name := e.text
    id := scrapeIdOf e.text
    price := e.priceNear.getD "Price not found" }

/-- src/app.py 76-156.  A raising request is caught into `some []`;
a 200 response yields the de-duplicated product list; on any other
status the `if` body is skipped and the function falls off its end,
returning Python `None`, modelled as `none`. -/
def scrape_biolink_products (fetch : Fetch (List ScrapeElem)) :
    Option (List ScrapeProduct) :=
  match fetch with
  | Fetch.netError => some []
  | Fetch.resp s elems =>
    if s = 200 then
      some (dedupBy ScrapeProduct.name [] ((elems.filter scrapeElemOk).map mkScrapeProduct))
    else none

/-- Sum of the two record shapes `get_biolink_products` of src/app.py
can pass along. -/
inductive BioProduct where
  | zoho : AZProduct → BioProduct
  | scraped : ScrapeProduct → BioProduct
deriving DecidableEq, Repr

/-- src/app.py 160-178: authenticated API first, then the scrape; a
falsy scrape result (empty list or Python `None`) falls through to the
final empty list. -/
def get_biolink_products_app (client_id client_secret access_token : Option String)
    (zohoFetch : Fetch (Option AZohoData)) (scrapeFetch : Fetch (List ScrapeElem)) :
    List BioProduct :=
  let z := get_zoho_commerce_products_app client_id client_secret access_token zohoFetch
  if z ≠ [] then z.map BioProduct.zoho
  else
    match scrape_biolink_products scrapeFetch with
    | none => []
    | some [] => []
    | some (p :: ps) => (p :: ps).map BioProduct.scraped

/-- An anchor of the search-results page: href and stripped text, as
delivered by the external HTML parser. -/
structure Link where
  href : String
  text : String
deriving DecidableEq, Repr

/-- The name/url record built at src/app.py 385-388. -/
structure LinkProd where
  name : String
  url : String
deriving DecidableEq, Repr

def nav_skip_words : List String :=
  ["sign in", "sign up", "my profile", "my orders", "contact us", "help",
   "search", "home", "about", "terms", "privacy", "shipping", "career",
   "refund", "return", "deliveries", "information", "store locations",
   "order details"]

/-- src/app.py 369-374: keep links with usable text that is not an
obvious navigation phrase. -/
def linkTextOk (l : Link) : Bool :=
  !(decide (l.text = "") || decide (l.text.length < 3)) &&
  !(nav_skip_words.any (fun w => strContains (pyToLower l.text) w))

/-- src/app.py 377-388: absolute-URL construction and record build. -/
def mkLinkProd (l : Link) : LinkProd :=
  { name := l.text
    url :=
      if strStartsWith l.href "/" then storeOrigin ++ l.href
      else if strStartsWith l.href "http" then l.href
      else storeOrigin ++ "/" ++ l.href }

/-- The pre-de-duplication product list of `get_search_results`: anchors
whose href contains `/products/`, filtered by text, then normalized. -/
def search_pre (links : List Link) : List LinkProd :=
  (((links.filter (fun l => strContains l.href "/products/")).filter linkTextOk).map mkLinkProd)

/-- src/app.py 342-406: non-200 statuses and raising requests both
return the empty list; a 200 response yields the de-duplicated records. -/
def get_search_results (fetch : Fetch (List Link)) : List LinkProd :=
  match fetch with
  | Fetch.netError => []
  | Fetch.resp s links =>
    if s ≠ 200 then [] else dedupBy LinkProd.name [] (search_pre links)

/-! ### Orchestrator: `find_product_url` (src/app.py 282-340)

The search loop issues one site-search HTTP query per entry of its
`search_terms` list and feeds non-empty result lists to the matcher,
returning the first matched product's url.  The embedding is
instrumented: alongside the result it records every search URL actually
requested, in order, so that claims about which catalog queries are
issued become statements about that log. -/

/-- src/app.py 318: the site-search URL for one search term. -/
def search_url (term : String) : String :=
  "https://www.shopbiolinkdepot.org/search?q=" ++ term

/-- Python `product_name.replace(' ', '+')` (src/app.py 311). -/
def plusName (s : String) : String :=
  String.mk (s.data.map (fun c => if c = spaceChar then plusChar else c))

/-- src/app.py 299-311: the first three key terms, then (when at least
two key terms exist) the first two joined with a plus, then the full
name with spaces replaced by pluses. -/
def search_terms_app (product_name : String) : List String :=
  let kt := key_terms_app product_name
  kt.take 3 ++
  (match kt with
   | a :: b :: _ => [a ++ "+" ++ b]
   | _ => []) ++
  [plusName product_name]

structure UrlSearchRun where
  result : Option String
  queries : List String
deriving DecidableEq, Repr

/-- src/app.py 314-336: the per-term loop.  `search` maps a search URL
to the product links `get_search_results` extracts for it; `analyze`
is the matcher applied to a non-empty link list.  Every iteration
requests its URL (hence logs it); empty results and unmatched results
continue, and a match returns immediately with that product's url. -/
def run_terms (search : String → List LinkProd) (analyze : List LinkProd → Option LinkProd) :
    List String → UrlSearchRun
  | [] => { result := none, queries := [] }
  | t :: ts =>
    if search t = [] then
      let r := run_terms search analyze ts
      { result := r.result, queries := t :: r.queries }
    else
      match analyze (search t) with
      | some p => { result := some p.url, queries := [t] }
      | none =>
        let r := run_terms search analyze ts
        { result := r.result, queries := t :: r.queries }

/-- The matcher as invoked at src/app.py 328: the ranking model is an
oracle from the candidate list to its free-form response text (the
target name is part of the prompt and is fixed by the caller). -/
def analyzeOf (jsonLoads : String → Option AIResult) (model : List LinkProd → String)
    (links : List LinkProd) : Option LinkProd :=
  analyze_products_with_ai jsonLoads links (model links)

/-- src/app.py 282-340: the `Not Found` sentinel returns `None` before
any term extraction or query; otherwise the instrumented search loop
runs over the built search-term list. -/
def find_product_url (jsonLoads : String → Option AIResult)
    (model : String → List LinkProd → String)
    (search : String → List LinkProd) (product_name : String) : UrlSearchRun :=
  if product_name = "Not Found" then { result := none, queries := [] }
  else
    run_terms search (analyzeOf jsonLoads (model product_name))
      ((search_terms_app product_name).map search_url)

/-! ### Upload handlers

`upload_image` of src/app.py 480-520 (src/app_backup.py 351-391 is
textually identical) and of src/app_candidates.py 291-334.  The request
is modelled by whether the multipart field `image` is present and by the
uploaded filename; the vision step is an oracle whose result is only
consulted in the branch that actually calls it, recorded by the
`visionCalled` flag. -/

structure Identification where
  identified_item : String
  confidence : String
  item_type : String
  key_features : List String
  notes : String
deriving DecidableEq, Repr

/-- Response summary of the auto-select variant's handler. -/
structure UploadRespA where
  status : Nat
  error : Option String
  identification : Option Identification
  product_url : Option String
  visionCalled : Bool
deriving DecidableEq, Repr

/-- src/app.py 480-520: missing file and empty filename give 400; a
missing vision key gives 500 with an explicit message before the vision
call; otherwise identify, then search unless the sentinel came back. -/
def upload_image_app (hasKey : Bool) (hasImageField : Bool) (filename : String)
    (identify : Identification)
    (jsonLoads : String → Option AIResult)
    (model : String → List LinkProd → String)
    (search : String → List LinkProd) : UploadRespA :=
  if !hasImageField then
    { status := 400, error := some "No image file provided", identification := none,
      product_url := none, visionCalled := false }
  else if filename = "" then
    { status := 400, error := some "No image file selected", identification := none,
      product_url := none, visionCalled := false }
  else if !hasKey then
    { status := 500, error := some "AI service not configured", identification := none,
      product_url := none, visionCalled := false }
  else
    let product_url :=
      if identify.identified_item ≠ "Not Found" then
        (find_product_url jsonLoads model search identify.identified_item).result
      else none
    { status := 200, error := none, identification := some identify,
      product_url := product_url, visionCalled := true }

/-- Response summary of the candidate-selection variant's handler. -/
structure UploadRespC where
  status : Nat
  error : Option String
  identification : Option Identification
  candidate_products : Option (List ZProduct)
  visionCalled : Bool
deriving DecidableEq, Repr

/-- src/app_candidates.py 291-334: missing file and empty filename give
400; a missing vision key returns a NORMAL 200 payload with a stubbed
`Not Found` identification, a not-configured note, and an empty
candidate list, before the vision call; otherwise identify, then gather
candidates. -/
def upload_image_cand (hasKey : Bool) (hasImageField : Bool) (filename : String)
    (identify : Identification)
    (fetch : String → Fetch (Option ZohoData)) : UploadRespC :=
  if !hasImageField then
    { status := 400, error := some "No image file provided", identification := none,
      candidate_products := none, visionCalled := false }
  else if filename = "" then
    { status := 400, error := some "No image file selected", identification := none,
      candidate_products := none, visionCalled := false }
  else if !hasKey then
    { status := 200, error := none
      identification := some
        { identified_item := "Not Found", confidence := "Low", item_type := "Unknown",
          key_features := [], notes := "OpenAI API key not configured" }
      candidate_products := some [], visionCalled := false }
  else
    let cands := (find_product_candidates fetch identify.identified_item).1
    { status := 200, error := none, identification := some identify,
      candidate_products := some cands, visionCalled := true }

/-! ### Concrete fixtures -/

/-- An upstream storefront product that supplies no `url` but a bare
handle: the shape named by the spec's normalization duty. -/
def bareHandleProduct : UProduct :=
  { url := none, handle := some "red-bull-energy-drink", product_id := some "123",
    id := none, name := some "Red Bull Energy Drink", selling_price := some "1.99",
    price := none, description := some "", short_description := none }

def bareHandleData : ZohoData :=
  { products := some [bareHandleProduct], data_field := none, payload := none }

/-- A storefront environment whose every endpoint answers 200 with the
bare-handle product. -/
def bareHandleFetch : String → Fetch (Option ZohoData) :=
  fun _ => Fetch.resp 200 (some bareHandleData)

/-- Attempt-level failure of the storefront loop: the request raised,
the status was not 200, or the 200 body failed to parse. -/
def zohoAttemptFailed : Fetch (Option ZohoData) → Bool
  | Fetch.netError => true
  | Fetch.resp s body => if s = 200 then body.isNone else true

/-- Two search-result anchors whose texts differ only in letter case. -/
def caseTwinLinks : List Link :=
  [{ href := "/products/a", text := "Flask" }, { href := "/products/b", text := "flask" }]

/-- The first of the two case-twin records after normalization. -/
def caseTwinFirst : LinkProd :=
  { name := "Flask", url := "https://www.shopbiolinkdepot.org/products/a" }

/-! ### Helper lemmas -/

theorem firstIdx_get (c : Char) :
    ∀ (l : List Char) (i : Nat), firstIdx c l = some i → l.get? i = some c := by
  intro l
  induction l with
  | nil => intro i h; simp [firstIdx] at h
  | cons a as ih =>
    intro i h
    by_cases hac : a = c
    · simp only [firstIdx, if_pos hac, Option.some.injEq] at h
      subst h
      simp [hac]
    · simp only [firstIdx, if_neg hac, Option.map_eq_some'] at h
      obtain ⟨j, hj, rfl⟩ := h
      simpa using ih j hj

theorem lastIdx_get (c : Char) :
    ∀ (l : List Char) (j : Nat), lastIdx c l = some j → l.get? j = some c := by
  intro l
  induction l with
  | nil => intro j h; simp [lastIdx] at h
  | cons a as ih =>
    intro j h
    cases hrec : lastIdx c as with
    | some j' =>
      simp only [lastIdx, hrec, Option.some.injEq] at h
      subst h
      simpa using ih j' hrec
    | none =>
      simp only [lastIdx, hrec] at h
      by_cases hac : a = c
      · simp only [if_pos hac, Option.some.injEq] at h
        subst h
        simp [hac]
      · simp [if_neg hac] at h

theorem reSearchJson_braces (l : List Char) (sub : List Char)
    (h : reSearchJson l = some sub) :
    ∃ i j, i < j ∧ l.get? i = some openBraceChar ∧ l.get? j = some closeBraceChar := by
  unfold reSearchJson at h
  cases hf : firstIdx openBraceChar l with
  | none => rw [hf] at h; cases h
  | some i =>
    cases hl : lastIdx closeBraceChar l with
    | none => rw [hf, hl] at h; cases h
    | some j =>
      rw [hf, hl] at h
      by_cases hij : i < j
      · exact ⟨i, j, hij, firstIdx_get _ _ _ hf, lastIdx_get _ _ _ hl⟩
      · exfalso
        revert h
        simp [hij]

theorem run_terms_queries_lead (search : String → List LinkProd)
    (analyze : List LinkProd → Option LinkProd) :
    ∀ ts : List String, ∃ rest, (run_terms search analyze ts).queries ++ rest = ts := by
  intro ts
  induction ts with
  | nil => exact ⟨[], rfl⟩
  | cons t ts ih =>
    by_cases hs : search t = []
    · obtain ⟨rest, hrest⟩ := ih
      exact ⟨rest, by simp [run_terms, hs, hrest]⟩
    · cases ha : analyze (search t) with
      | some p => exact ⟨ts, by simp [run_terms, hs, ha]⟩
      | none =>
        obtain ⟨rest, hrest⟩ := ih
        exact ⟨rest, by simp [run_terms, hs, ha, hrest]⟩

theorem run_terms_result_none (search : String → List LinkProd)
    (analyze : List LinkProd → Option LinkProd) :
    ∀ ts : List String, (run_terms search analyze ts).result = none →
      (run_terms search analyze ts).queries = ts := by
  intro ts
  induction ts with
  | nil => intro _; rfl
  | cons t ts ih =>
    intro h
    by_cases hs : search t = []
    · simp only [run_terms, if_pos hs] at h ⊢
      simp [ih h]
    · cases ha : analyze (search t) with
      | some p => simp [run_terms, hs, ha] at h
      | none =>
        simp only [run_terms, if_neg hs, ha] at h ⊢
        simp [ih h]

theorem run_terms_result_some (search : String → List LinkProd)
    (analyze : List LinkProd → Option LinkProd) :
    ∀ (ts : List String) (u : String), (run_terms search analyze ts).result = some u →
      ∃ q t, (run_terms search analyze ts).queries = q ++ [t] ∧
        (∀ x ∈ q, search x = [] ∨ analyze (search x) = none) ∧
        search t ≠ [] ∧ ∃ p, analyze (search t) = some p ∧ u = p.url := by
  intro ts
  induction ts with
  | nil => intro u h; simp [run_terms] at h
  | cons t ts ih =>
    intro u h
    by_cases hs : search t = []
    · simp only [run_terms, if_pos hs] at h ⊢
      obtain ⟨q, t', hq, hall, hne, p, hp, hu⟩ := ih u h
      refine ⟨t :: q, t', by simp [hq], ?_, hne, p, hp, hu⟩
      intro x hx
      rcases List.mem_cons.mp hx with rfl | hx
      · exact Or.inl hs
      · exact hall x hx
    · cases ha : analyze (search t) with
      | some p =>
        simp only [run_terms, if_neg hs, ha, Option.some.injEq] at h ⊢
        exact ⟨[], t, rfl, by simp, hs, p, ha, h.symm⟩
      | none =>
        simp only [run_terms, if_neg hs, ha] at h ⊢
        obtain ⟨q, t', hq, hall, hne, p, hp, hu⟩ := ih u h
        refine ⟨t :: q, t', by simp [hq], ?_, hne, p, hp, hu⟩
        intro x hx
        rcases List.mem_cons.mp hx with rfl | hx
        · exact Or.inr ha
        · exact hall x hx

theorem dedupBy_mem_spec {α : Type} (f : α → String) :
    ∀ (l : List α) (seen : List String) (p : α), p ∈ dedupBy f seen l →
      f p ∉ seen ∧ (l.filter (fun q => decide (f q = f p))).head? = some p := by
  intro l
  induction l with
  | nil => intro seen p hp; simp [dedupBy] at hp
  | cons a as ih =>
    intro seen p hp
    by_cases ha : f a ∈ seen
    · simp only [dedupBy, if_pos ha] at hp
      obtain ⟨h1, h2⟩ := ih seen p hp
      have hne : ¬ (f a = f p) := fun he => h1 (he ▸ ha)
      refine ⟨h1, ?_⟩
      rw [List.filter_cons]
      simp [hne, h2]
    · simp only [dedupBy, if_neg ha] at hp
      rcases List.mem_cons.mp hp with rfl | hp
      · refine ⟨ha, ?_⟩
        rw [List.filter_cons]
        simp
      · obtain ⟨h1, h2⟩ := ih (f a :: seen) p hp
        have hne : ¬ (f a = f p) := fun he => h1 (by rw [← he]; exact List.mem_cons_self _ _)
        refine ⟨fun hs => h1 (List.mem_cons_of_mem _ hs), ?_⟩
        rw [List.filter_cons]
        simp [hne, h2]

theorem dedupBy_pairwise {α : Type} (f : α → String) :
    ∀ (l : List α) (seen : List String),
      (dedupBy f seen l).Pairwise (fun a b => f a ≠ f b) := by
  intro l
  induction l with
  | nil => intro seen; simp [dedupBy]
  | cons a as ih =>
    intro seen
    by_cases ha : f a ∈ seen
    · simpa only [dedupBy, if_pos ha] using ih seen
    · simp only [dedupBy, if_neg ha]
      refine List.Pairwise.cons ?_ (ih _)
      intro b hb he
      have hnotin := (dedupBy_mem_spec f as (f a :: seen) b hb).1
      exact hnotin (by rw [← he]; exact List.mem_cons_self _ _)

theorem dedupBy_sublist {α : Type} (f : α → String) :
    ∀ (l : List α) (seen : List String), List.Sublist (dedupBy f seen l) l := by
  intro l
  induction l with
  | nil => intro seen; simp [dedupBy]
  | cons a as ih =>
    intro seen
    by_cases ha : f a ∈ seen
    · simp only [dedupBy, if_pos ha]
      exact List.Sublist.cons a (ih seen)
    · simp only [dedupBy, if_neg ha]
      exact List.Sublist.cons₂ a (ih _)

theorem zoho_try_urls_all_failed (fetch : String → Fetch (Option ZohoData)) :
    ∀ urls : List String, (∀ u ∈ urls, zohoAttemptFailed (fetch u) = true) →
      zoho_try_urls fetch urls = ([], urls) := by
  intro urls
  induction urls with
  | nil => intro _; rfl
  | cons u rest ih =>
    intro h
    have hu := h u (List.mem_cons_self u rest)
    have hrest := ih (fun v hv => h v (List.mem_cons_of_mem u hv))
    cases hf : fetch u with
    | netError => simp [zoho_try_urls, hf, hrest]
    | resp s body =>
      rw [hf] at hu
      by_cases hs : s = 200
      · subst hs
        simp only [zohoAttemptFailed, if_pos rfl] at hu
        cases body with
        | none => simp [zoho_try_urls, hf, hrest]
        | some d => simp at hu
      · simp [zoho_try_urls, hf, hs, hrest]

/-! ### Claim theorems -/

/-- C2: whenever the Candidate Matcher `analyze_products_with_ai` returns a
product (rather than no match), the model's response parsed to a result whose
declared `best_match_number` k lies within 1..N for a candidate list of
length N, and the returned product is exactly the candidate at position k of
the numbered list; an index outside the list's bounds is never selected. -/
theorem claim_C2_matcher_in_bounds {α : Type} (jsonLoads : String → Option AIResult)
    (product_list : List α) (response_content : String) (p : α)
    (h : analyze_products_with_ai jsonLoads product_list response_content = some p) :
    ∃ sub res k, reSearchStr response_content = some sub ∧ jsonLoads sub = some res ∧
      res.match_found = true ∧ res.best_match_number = some k ∧
      1 ≤ k ∧ k ≤ (product_list.length : Int) ∧
      product_list.get? (k - 1).toNat = some p := by
  unfold analyze_products_with_ai at h
  cases hre : reSearchStr response_content with
  | none => simp [hre] at h
  | some sub =>
    simp only [hre] at h
    cases hjl : jsonLoads sub with
    | none => simp [hjl] at h
    | some res =>
      simp only [hjl] at h
      by_cases hmf : res.match_found = true
      · simp only [hmf, if_true] at h
        cases hbm : res.best_match_number with
        | none => simp [hbm] at h
        | some k =>
          simp only [hbm] at h
          by_cases hk0 : k = 0
          · simp [hk0] at h
          · rw [if_neg hk0] at h
            split at h
            next hb =>
              injection h with h
              have hlt : (k - 1).toNat < product_list.length := by omega
              refine ⟨sub, res, k, rfl, hjl, hmf, hbm, by omega, by omega, ?_⟩
              rw [List.get?_eq_get hlt]
              exact congrArg some h
            next hb => cases h
      · simp [hmf] at h

/-- C2 witness: a one-element candidate list with a response text that is
just an empty JSON object and a parse declaring best match number 1. -/
theorem claim_C2_matcher_in_bounds_witness :
    analyze_products_with_ai
        (fun _ => some { match_found := true, best_match_number := some 1 })
        ([42] : List Nat) "\x7b\x7d" = some 42 ∧
    ∃ (sub : String) (res : AIResult) (k : Int), reSearchStr "\x7b\x7d" = some sub ∧
      (fun _ : String => some ({ match_found := true, best_match_number := some 1 } : AIResult)) sub
        = some res ∧
      res.match_found = true ∧ res.best_match_number = some k ∧
      1 ≤ k ∧ k ≤ (([42] : List Nat).length : Int) ∧
      ([42] : List Nat).get? (k - 1).toNat = some 42 :=
  ⟨by decide,
   claim_C2_matcher_in_bounds
     (fun _ => some { match_found := true, best_match_number := some 1 })
     ([42] : List Nat) "\x7b\x7d" 42 (by decide)⟩

/-- C3: the Candidate Matcher returns no match (`none`, a total function, so
no exception reaches the caller) whenever the response has no brace-delimited
substring, or the extracted substring fails to parse, or the parse declares an
index outside 1..N; in particular any response text with no opening brace
followed by a closing brace yields no match. -/
theorem claim_C3_unparseable_no_match {α : Type} (jl : String → Option AIResult)
    (pl : List α) (resp : String) :
    (reSearchStr resp = none → analyze_products_with_ai jl pl resp = none) ∧
    (∀ sub, reSearchStr resp = some sub → jl sub = none →
      analyze_products_with_ai jl pl resp = none) ∧
    (∀ sub res k, reSearchStr resp = some sub → jl sub = some res →
      res.best_match_number = some k → (k < 1 ∨ (pl.length : Int) < k) →
      analyze_products_with_ai jl pl resp = none) ∧
    ((¬ ∃ i j, i < j ∧ resp.data.get? i = some openBraceChar ∧
        resp.data.get? j = some closeBraceChar) →
      analyze_products_with_ai jl pl resp = none) := by
  have part1 : reSearchStr resp = none → analyze_products_with_ai jl pl resp = none := by
    intro hre
    unfold analyze_products_with_ai
    simp [hre]
  refine ⟨part1, ?_, ?_, ?_⟩
  · intro sub hre hjl
    unfold analyze_products_with_ai
    simp [hre, hjl]
  · intro sub res k hre hjl hbm hk
    unfold analyze_products_with_ai
    simp only [hre, hjl, hbm]
    by_cases hmf : res.match_found = true
    · simp only [hmf, if_true]
      by_cases hk0 : k = 0
      · simp [hk0]
      · rw [if_neg hk0]
        have hcond : ¬(0 ≤ k - 1 ∧ k - 1 < (pl.length : Int)) := by omega
        rw [dif_neg hcond]
    · simp [hmf]
  · intro hnb
    cases hre : reSearchStr resp with
    | none => exact part1 hre
    | some sub =>
      exfalso
      apply hnb
      unfold reSearchStr at hre
      cases hj : reSearchJson resp.data with
      | none => simp [hj] at hre
      | some l' => exact reSearchJson_braces _ _ hj

/-- C3 witness: a response without any brace yields no match. -/
theorem claim_C3_unparseable_no_match_witness :
    analyze_products_with_ai
      (fun _ => some { match_found := true, best_match_number := some 1 })
      ([0] : List Nat) "no json here" = none :=
  (claim_C3_unparseable_no_match
      (fun _ => some { match_found := true, best_match_number := some 1 })
      ([0] : List Nat) "no json here").1 (by decide)

/-- C4: when the identified item name is exactly the sentinel `Not Found`,
both pipeline variants return no match immediately — `find_product_url`
yields `None` and `find_product_candidates` yields an empty candidate list —
with an empty query log, i.e. without issuing any catalog query, for every
search environment and every model oracle. -/
theorem claim_C4_not_found_short_circuit
    (jl : String → Option AIResult) (model : String → List LinkProd → String)
    (search : String → List LinkProd) (fetch : String → Fetch (Option ZohoData)) :
    find_product_url jl model search "Not Found" = { result := none, queries := [] } ∧
    find_product_candidates fetch "Not Found" = ([], []) := by
  constructor
  · unfold find_product_url
    rw [if_pos rfl]
  · unfold find_product_candidates
    rw [if_pos rfl]

/-- C5: an item name all of whose whitespace-split lowercase tokens are stop
words or have length at most two extracts to the empty term list (in the
candidate variant, whose stop-word list carries the unit abbreviations, and
equally in the auto-select variant); in general every extracted term is a
token of the lowercased name, longer than two characters and not a stop
word, and the output is an order-preserving sublist of the tokenization. -/
theorem claim_C5_term_extractor (name : String)
    (h : ∀ t ∈ pySplitWords (pyToLower name), t ∈ stop_words_cand ∨ t.length ≤ 2) :
    key_terms_cand name = [] ∧ key_terms_app name = [] ∧
    (∀ m : String, ∀ t ∈ key_terms_cand m,
      t ∉ stop_words_cand ∧ 2 < t.length ∧ t ∈ pySplitWords (pyToLower m)) ∧
    (∀ m : String, List.Sublist (key_terms_cand m) (pySplitWords (pyToLower m))) := by
  have hsub : ∀ t ∈ stop_words_cand, t ∈ stop_words_app ∨ t.length ≤ 2 := by decide
  refine ⟨?_, ?_, ?_, ?_⟩
  · rw [key_terms_cand, List.filter_eq_nil_iff]
    intro t ht
    simp only [Bool.and_eq_true, decide_eq_true_eq]
    rintro ⟨hn, hl⟩
    rcases h t ht with hst | hlen
    · exact hn hst
    · omega
  · rw [key_terms_app, List.filter_eq_nil_iff]
    intro t ht
    simp only [Bool.and_eq_true, decide_eq_true_eq]
    rintro ⟨hn, hl⟩
    rcases h t ht with hst | hlen
    · rcases hsub t hst with hst' | hlen'
      · exact hn hst'
      · omega
    · omega
  · intro m t ht
    rw [key_terms_cand] at ht
    obtain ⟨hmem, hpred⟩ := List.mem_filter.mp ht
    simp only [Bool.and_eq_true, decide_eq_true_eq] at hpred
    exact ⟨hpred.1, hpred.2, hmem⟩
  · intro m
    exact List.filter_sublist _

/-- C5 witness: a name made only of stop words and short tokens. -/
theorem claim_C5_term_extractor_witness :
    (∀ t ∈ pySplitWords (pyToLower "Of the ML x"), t ∈ stop_words_cand ∨ t.length ≤ 2) ∧
    key_terms_cand "Of the ML x" = [] :=
  ⟨by decide, (claim_C5_term_extractor "Of the ML x" (by decide)).1⟩

/-- C10: for any non-sentinel name and any storefront environment, the
candidate variant returns exactly the first ten catalog products (in catalog
order), hence never more than ten, and returns the catalog list unchanged
whenever it has at most ten entries. -/
theorem claim_C10_top_ten (fetch : String → Fetch (Option ZohoData)) (name : String)
    (h : name ≠ "Not Found") :
    (find_product_candidates fetch name).1 =
      ((get_biolink_products fetch (some (key_terms_cand name))).1).take 10 ∧
    (find_product_candidates fetch name).1.length ≤ 10 ∧
    ((get_biolink_products fetch (some (key_terms_cand name))).1.length ≤ 10 →
      (find_product_candidates fetch name).1 =
        (get_biolink_products fetch (some (key_terms_cand name))).1) := by
  have h1 : (find_product_candidates fetch name).1 =
      ((get_biolink_products fetch (some (key_terms_cand name))).1).take 10 := by
    simp only [find_product_candidates, if_neg h]
    by_cases hz : (get_biolink_products fetch (some (key_terms_cand name))).1 = []
    · simp [hz]
    · simp [hz]
  refine ⟨h1, ?_, ?_⟩
  · rw [h1, List.length_take]
    omega
  · intro hlen
    rw [h1, List.take_of_length_le hlen]

/-- C10 witness: a failing environment and the name `beaker`. -/
theorem claim_C10_top_ten_witness :
    (find_product_candidates (fun _ => Fetch.netError) "beaker").1 =
      ((get_biolink_products (fun _ => Fetch.netError)
          (some (key_terms_cand "beaker"))).1).take 10 :=
  (claim_C10_top_ten (fun _ => Fetch.netError) "beaker" (by decide)).1

/-- C1: evaluation of the storefront Catalog Query Client at an upstream
response whose product carries no `url` but a bare (non-slash, non-http)
`handle`: the surfaced ProductRecord's url is the raw handle, which does not
start with `http`, and this record reaches `candidate_products` through
`find_product_candidates` — contradicting the claimed invariant that every
surfaced url is absolute; the spec and the code's own normalization intent
(`Fix relative URLs - make them absolute`) mark this as a code bug. -/
theorem claim_C1_bare_handle_not_absolute :
    (find_product_candidates bareHandleFetch "Red Bull Energy Drink").1.map ZProduct.url =
      ["red-bull-energy-drink"] ∧
    strStartsWith "red-bull-energy-drink" "http" = false ∧
    (get_zoho_commerce_products bareHandleFetch (some ["red", "bull"])).1.map ZProduct.url =
      ["red-bull-energy-drink"] := by decide

/-- C6 counterexample: two anchors whose texts differ only in case both
survive the Catalog Query Client's de-duplication, so duplicate names are NOT
collapsed case-insensitively. -/
theorem claim_C6_counterexample :
    (get_search_results (Fetch.resp 200 caseTwinLinks)).map LinkProd.name =
      ["Flask", "flask"] ∧
    pyToLower "Flask" = pyToLower "flask" := by decide

/-- C6 amended: de-duplication in the Catalog Query Client is
case-SENSITIVE, keeping the first occurrence: every record returned by
`get_search_results` is the first pre-de-duplication record bearing its exact
name, any two returned records have different names under exact comparison,
the returned list preserves the upstream order (it is a sublist), and the
scrape strategy's de-duplication satisfies the same pairwise-distinctness. -/
theorem claim_C6_dedup_case_sensitive (links : List Link) (p : LinkProd)
    (hp : p ∈ get_search_results (Fetch.resp 200 links)) :
    ((search_pre links).filter (fun q => decide (q.name = p.name))).head? = some p ∧
    (get_search_results (Fetch.resp 200 links)).Pairwise (fun a b => a.name ≠ b.name) ∧
    List.Sublist (get_search_results (Fetch.resp 200 links)) (search_pre links) ∧
    (∀ (elems : List ScrapeElem) (l : List ScrapeProduct),
      scrape_biolink_products (Fetch.resp 200 elems) = some l →
      l.Pairwise (fun a b => a.name ≠ b.name)) := by
  have hg : get_search_results (Fetch.resp 200 links) =
      dedupBy LinkProd.name [] (search_pre links) := by
    simp [get_search_results]
  rw [hg] at hp
  refine ⟨(dedupBy_mem_spec LinkProd.name (search_pre links) [] p hp).2, ?_, ?_, ?_⟩
  · rw [hg]
    exact dedupBy_pairwise _ _ _
  · rw [hg]
    exact dedupBy_sublist _ _ _
  · intro elems l hl
    simp [scrape_biolink_products] at hl
    rw [← hl]
    exact dedupBy_pairwise _ _ _

/-- C6 witness: the amended first-occurrence property at the case-twin
input. -/
theorem claim_C6_dedup_case_sensitive_witness :
    ((search_pre caseTwinLinks).filter
      (fun q => decide (q.name = caseTwinFirst.name))).head? = some caseTwinFirst :=
  (claim_C6_dedup_case_sensitive caseTwinLinks caseTwinFirst (by decide)).1

/-- C7 counterexample: on a non-200 response the scrape strategy returns
Python `None` (its 200-branch is skipped and the function falls off its end),
not an empty result list. -/
theorem claim_C7_counterexample :
    scrape_biolink_products (Fetch.resp 404 []) = none ∧
    (none : Option (List ScrapeProduct)) ≠ some [] := by
  constructor
  · rfl
  · simp

/-- C7 amended: network errors, non-200 statuses and malformed JSON are
absorbed without an exception by every catalog strategy function — the
authenticated API and the site-search strategy return the empty list, the
storefront loop skips failing endpoints and returns the empty list when every
endpoint fails, and the scrape strategy returns the empty list on a raising
request but Python `None` (falsy, still zero results for its caller, as the
last conjunct shows) on a non-200 response. -/
theorem claim_C7_failure_absorption
    (a b c : Option String) (s : Nat) (bodyA : Option AZohoData)
    (links : List Link) (elems : List ScrapeElem)
    (fetch : String → Fetch (Option ZohoData)) (ts : Option (List String))
    (hs : s ≠ 200)
    (hf : ∀ u, zohoAttemptFailed (fetch u) = true) :
    get_zoho_commerce_products_app a b c Fetch.netError = [] ∧
    get_zoho_commerce_products_app a b c (Fetch.resp s bodyA) = [] ∧
    get_zoho_commerce_products_app a b c (Fetch.resp 200 none) = [] ∧
    get_search_results Fetch.netError = [] ∧
    get_search_results (Fetch.resp s links) = [] ∧
    scrape_biolink_products Fetch.netError = some [] ∧
    scrape_biolink_products (Fetch.resp s elems) = none ∧
    (get_zoho_commerce_products fetch ts).1 = [] ∧
    get_biolink_products_app a b c (Fetch.resp s bodyA) (Fetch.resp s elems) = [] := by
  have h2 : get_zoho_commerce_products_app a b c (Fetch.resp s bodyA) = [] := by
    unfold get_zoho_commerce_products_app
    split
    · rfl
    · simp [hs]
  have h7 : scrape_biolink_products (Fetch.resp s elems) = none := by
    simp [scrape_biolink_products, hs]
  refine ⟨?_, h2, ?_, rfl, ?_, rfl, h7, ?_, ?_⟩
  · unfold get_zoho_commerce_products_app
    split <;> rfl
  · unfold get_zoho_commerce_products_app
    split <;> rfl
  · simp [get_search_results, hs]
  · unfold get_zoho_commerce_products
    rw [zoho_try_urls_all_failed fetch (zoho_api_urls ts) (fun u _ => hf u)]
  · simp [get_biolink_products_app, h2, h7]

/-- C7 witness: a storefront environment whose every request raises. -/
theorem claim_C7_failure_absorption_witness :
    (get_zoho_commerce_products (fun _ => Fetch.netError) none).1 = [] :=
  (claim_C7_failure_absorption none none none 404 none [] [] (fun _ => Fetch.netError) none
    (by decide) (fun _ => rfl)).2.2.2.2.2.2.2.1

/-- C8 counterexample: with the vision key absent and a well-formed upload,
the candidate-selection variant's handler answers 200 (a normal payload with
an empty candidate list), not the claimed user-facing 500. -/
theorem claim_C8_counterexample :
    (upload_image_cand false true "item.jpg"
        { identified_item := "Beaker", confidence := "High", item_type := "Lab",
          key_features := [], notes := "" }
        (fun _ => Fetch.netError)).status = 200 ∧
    (upload_image_cand false true "item.jpg"
        { identified_item := "Beaker", confidence := "High", item_type := "Lab",
          key_features := [], notes := "" }
        (fun _ => Fetch.netError)).status ≠ 500 := by decide

/-- C8 amended: with the vision key absent and a well-formed upload, every
variant short-circuits before the vision call; the auto-select handler
answers 500 with the explicit `AI service not configured` message, while the
candidate-selection handler instead answers 200 with an empty candidate list
and a stubbed not-configured identification. -/
theorem claim_C8_missing_key_short_circuit
    (filename : String) (ident : Identification)
    (jl : String → Option AIResult) (model : String → List LinkProd → String)
    (search : String → List LinkProd) (fetch : String → Fetch (Option ZohoData))
    (hfn : filename ≠ "") :
    (upload_image_app false true filename ident jl model search).status = 500 ∧
    (upload_image_app false true filename ident jl model search).error =
      some "AI service not configured" ∧
    (upload_image_app false true filename ident jl model search).visionCalled = false ∧
    (upload_image_cand false true filename ident fetch).status = 200 ∧
    (upload_image_cand false true filename ident fetch).candidate_products = some [] ∧
    (upload_image_cand false true filename ident fetch).visionCalled = false := by
  have ha : upload_image_app false true filename ident jl model search =
      { status := 500, error := some "AI service not configured", identification := none,
        product_url := none, visionCalled := false } := by
    unfold upload_image_app
    simp [hfn]
  have hc : upload_image_cand false true filename ident fetch =
      { status := 200, error := none
        identification := some
          { identified_item := "Not Found", confidence := "Low", item_type := "Unknown",
            key_features := [], notes := "OpenAI API key not configured" }
        candidate_products := some [], visionCalled := false } := by
    unfold upload_image_cand
    simp [hfn]
  rw [ha, hc]
  exact ⟨rfl, rfl, rfl, rfl, rfl, rfl⟩

/-- C8 witness: the amended behaviour at a concrete upload. -/
theorem claim_C8_missing_key_short_circuit_witness :
    (upload_image_app false true "x"
        { identified_item := "Beaker", confidence := "High", item_type := "Lab",
          key_features := [], notes := "" }
        (fun _ => none) (fun _ _ => "") (fun _ => [])).status = 500 :=
  (claim_C8_missing_key_short_circuit "x"
      { identified_item := "Beaker", confidence := "High", item_type := "Lab",
        key_features := [], notes := "" }
      (fun _ => none) (fun _ _ => "") (fun _ => []) (fun _ => Fetch.netError)
      (by decide)).1

/-- C9 counterexample: `flask` is the fourth extracted term of a
five-term name, and the orchestrator never issues its catalog query (with a
search environment returning no results, so the loop runs through the whole
schedule) even though the full-name fallback query is issued — refuting that
every extracted term is tried before the full-name query. -/
theorem claim_C9_counterexample :
    "flask" ∈ key_terms_app "sterile glass erlenmeyer flask beaker" ∧
    search_url "flask" ∉
      (find_product_url (fun _ => none) (fun _ _ => "") (fun _ => [])
        "sterile glass erlenmeyer flask beaker").queries := by decide

/-- C9 amended: for a non-sentinel name, the queries issued are an initial
segment of the schedule built from the first three extracted terms, then the
first-two-terms combination (when at least two terms exist), then the
full-name fallback, in that order; when no term matches, every entry of the
schedule — in particular each of the first three extracted terms — is
queried; and a returned url is always the first match: every earlier
scheduled query either had empty results or an unmatched ranking, and the
result is the matched product's url. -/
theorem claim_C9_search_term_schedule (jl : String → Option AIResult)
    (model : String → List LinkProd → String) (search : String → List LinkProd)
    (name : String) (hn : name ≠ "Not Found") :
    (∃ rest, (find_product_url jl model search name).queries ++ rest =
      (search_terms_app name).map search_url) ∧
    ((find_product_url jl model search name).result = none →
      (find_product_url jl model search name).queries =
        (search_terms_app name).map search_url) ∧
    ((find_product_url jl model search name).result = none →
      ∀ t ∈ (key_terms_app name).take 3,
        search_url t ∈ (find_product_url jl model search name).queries) ∧
    (∀ u, (find_product_url jl model search name).result = some u →
      ∃ q t, (find_product_url jl model search name).queries = q ++ [t] ∧
        (∀ x ∈ q, search x = [] ∨ analyzeOf jl (model name) (search x) = none) ∧
        search t ≠ [] ∧
        ∃ p, analyzeOf jl (model name) (search t) = some p ∧ u = p.url) := by
  have hdef : find_product_url jl model search name =
      run_terms search (analyzeOf jl (model name)) ((search_terms_app name).map search_url) := by
    unfold find_product_url
    rw [if_neg hn]
  refine ⟨?_, ?_, ?_, ?_⟩
  · rw [hdef]
    exact run_terms_queries_lead _ _ _
  · intro h
    rw [hdef] at h ⊢
    exact run_terms_result_none _ _ _ h
  · intro h t ht
    rw [hdef] at h ⊢
    rw [run_terms_result_none _ _ _ h]
    refine List.mem_map_of_mem _ ?_
    simp only [search_terms_app]
    exact List.mem_append.mpr (Or.inl (List.mem_append.mpr (Or.inl ht)))
  · intro u h
    rw [hdef] at h ⊢
    exact run_terms_result_some _ _ _ u h

/-- C9 witness: the amended schedule at the name `beaker` with a search
environment returning no results. -/
theorem claim_C9_search_term_schedule_witness :
    (find_product_url (fun _ => none) (fun _ _ => "") (fun _ => []) "beaker").queries =
      (search_terms_app "beaker").map search_url :=
  (claim_C9_search_term_schedule (fun _ => none) (fun _ _ => "") (fun _ => []) "beaker"
    (by decide)).2.1 (by decide)
